import Mathlib

/-
Shallow embedding of the text-scoring service in src/main.py.

Modelling conventions:
- Python strings are `List Char`; `str.strip`, `str.split` and character
  comparisons are modelled character by character (`pyStrip`, `pyWords`, ...).
- Python floats are modelled by exact rational arithmetic (`ℚ`); every value
  the theorems below inspect is an exact short decimal on which IEEE-754
  double arithmetic and exact rational arithmetic agree.
- Python `round(x, n)` (round-half-to-even) is `pyRound`.
- The JSON bodies of the two POST endpoints are records of `Option` fields;
  `dict.get(key, default)` is `Option.getD`.
- A raised `HTTPException(status, detail)` is the `HttpExc.http` value of an
  `Except` result; the `try/except Exception` wrapper of a handler is the
  `match` that converts any escaping exception into a 500.
-/

/-- Whitespace for Python `str.strip()` / `str.split()`: the characters for
which Python `str.isspace()` is true (ASCII whitespace, the separator
controls 0x1C-0x1F, NEL, NBSP, the Unicode space/line/paragraph separators). -/
def isPySpace (c : Char) : Bool :=
  c.toNat == 0x20 || (0x9 ≤ c.toNat && c.toNat ≤ 0xD) ||
  (0x1C ≤ c.toNat && c.toNat ≤ 0x1F) || c.toNat == 0x85 || c.toNat == 0xA0 ||
  c.toNat == 0x1680 || (0x2000 ≤ c.toNat && c.toNat ≤ 0x200A) ||
  c.toNat == 0x2028 || c.toNat == 0x2029 || c.toNat == 0x202F ||
  c.toNat == 0x205F || c.toNat == 0x3000

/-- Python `text.strip()`: drop leading and trailing whitespace. -/
def pyStrip (s : List Char) : List Char :=
  ((s.dropWhile isPySpace).reverse.dropWhile isPySpace).reverse

/-- Python `text.split()` with no argument: split on whitespace runs,
discarding empty segments. -/
def pyWords (s : List Char) : List (List Char) :=
  (s.splitOnP isPySpace).filter (fun w => !w.isEmpty)

/-- Python `"؀" <= char <= "ۿ"` (src/main.py line 51). -/
def isArabicChar (c : Char) : Bool :=
  0x600 ≤ c.toNat && c.toNat ≤ 0x6FF

/-- ASCII letter, i.e. a-z or A-Z. -/
def isAsciiAlpha (c : Char) : Bool :=
  (0x61 ≤ c.toNat && c.toNat ≤ 0x7A) || (0x41 ≤ c.toNat && c.toNat ≤ 0x5A)

/-- Python `"a" <= char.lower() <= "z"` (src/main.py line 52). Python
`str.lower()` applies the full Unicode lowercase mapping, so besides the
ASCII letters a-z and A-Z this test is also true for exactly two other
codepoints: U+212A KELVIN SIGN (lowercases to "k") and U+0130 LATIN CAPITAL
LETTER I WITH DOT ABOVE (lowercases to "i" followed by U+0307, and the
string comparison "a" <= "i̇" <= "z" holds). No other codepoint has a
lowercase form that compares inside the range. -/
def isEnglishLowerRange (c : Char) : Bool :=
  isAsciiAlpha c || c.toNat == 0x130 || c.toNat == 0x212A

/-- Result string of the classifier for Arabic (source: "العربية"). -/
def lang_arabic : String := "العربية"

/-- Result string of the classifier for English (source: "الإنجليزية"). -/
def lang_english : String := "الإنجليزية"

/-- Result string of the classifier for mixed text (source: "مختلطة"). -/
def lang_mixed : String := "مختلطة"

/-- `detect_language_advanced` from src/main.py lines 45-59. -/
def detect_language_advanced (text : List Char) : String :=
  if text = [] ∨ (pyStrip text).length < 10 then "unknown"
  else if (text.filter isArabicChar).length > (text.filter isEnglishLowerRange).length * 2 then
    lang_arabic
  else if (text.filter isEnglishLowerRange).length > (text.filter isArabicChar).length * 2 then
    lang_english
  else lang_mixed

/-- The language classifier exactly as the specification words it (§4.1):
`englishCount` counts ASCII letters a-z case-insensitively and only those
characters; the code version above additionally counts U+0130 and U+212A. -/
def detect_language_claim (text : List Char) : String :=
  if (pyStrip text).length < 10 then "unknown"
  else if (text.filter isArabicChar).length > (text.filter isAsciiAlpha).length * 2 then
    lang_arabic
  else if (text.filter isAsciiAlpha).length > (text.filter isArabicChar).length * 2 then
    lang_english
  else lang_mixed

/-- Round-half-to-even of a rational to an integer, the rounding mode of
Python `round`. -/
def roundHalfEven (q : ℚ) : ℤ :=
  if q - ⌊q⌋ < 1/2 then ⌊q⌋
  else if 1/2 < q - ⌊q⌋ then ⌊q⌋ + 1
  else if ⌊q⌋ % 2 = 0 then ⌊q⌋ else ⌊q⌋ + 1

/-- Python `round(q, nd)` on the exact rational value. -/
def pyRound (q : ℚ) (nd : Nat) : ℚ :=
  (roundHalfEven (q * 10 ^ nd) : ℚ) / 10 ^ nd

/-- Note for the short-text path (source: "النص قصير جدًا لتحليل دقيق",
"text too short for accurate analysis"). -/
def note_short : String := "النص قصير جدًا لتحليل دقيق"

/-- Note for the high-AI-likelihood branch (source: "نص ذو احتمالية عالية
للذكاء الاصطناعي", "high likelihood of AI-generated text"). -/
def note_high : String := "نص ذو احتمالية عالية للذكاء الاصطناعي"

/-- Note for the clearly-human branch (source: "نص بشري واضح",
"clearly human text"). -/
def note_human : String := "نص بشري واضح"

/-- Note for the inconclusive branch (source: "النتيجة غير حاسمة",
"inconclusive result"). -/
def note_inconclusive : String := "النتيجة غير حاسمة"

/-- The sentence-terminator replacement of src/main.py line 72:
`text.replace("!", ".").replace("?", ".").replace("؟", ".")`. -/
def replaceTerm (c : Char) : Char :=
  if c = '!' ∨ c = '?' ∨ c = '؟' then '.' else c

/-- Sentences of src/main.py line 72: split the terminator-normalised text
on ".", strip each segment, keep the non-empty ones. -/
def sentencesOf (text : List Char) : List (List Char) :=
  (((text.map replaceTerm).splitOn '.').map pyStrip).filter (fun s => !s.isEmpty)

/-- `avg_sentence_len` of src/main.py line 73:
`sum(len(s.split()) for s in sentences) / len(sentences) if sentences else 0`. -/
def avgSentenceLen (text : List Char) : ℚ :=
  if sentencesOf text = [] then 0
  else (((sentencesOf text).map (fun s => ((pyWords s).length : ℚ))).sum) /
    ((sentencesOf text).length : ℚ)

/-- The threshold classifier of src/main.py lines 76-81: base 0.5, 0.7 when
the average sentence length exceeds 25, 0.3 when it is below 10. -/
def aiProbOf (avg : ℚ) : ℚ :=
  if 25 < avg then 7/10 else if avg < 10 then 3/10 else 1/2

/-- The note selection of src/main.py lines 84-89; both comparisons are
strict, exactly as in the source. -/
def noteOf (ai : ℚ) : String :=
  if 7/10 < ai then note_high
  else if ai < 3/10 then note_human
  else note_inconclusive

/-- The optional `analysis` block of a detection result. -/
structure Analysis where
  word_count : Nat
  avg_sentence_length : ℚ
deriving DecidableEq, Repr

/-- The dictionary returned by `advanced_ai_detection`; the short-text path
omits `human_probability` and `analysis`, hence the `Option` fields. -/
structure DetectionResult where
  ai_probability : ℚ
  human_probability : Option ℚ
  note : String
  confidence : Nat
  language : String
  analysis : Option Analysis
deriving DecidableEq, Repr

/-- `advanced_ai_detection` from src/main.py lines 61-101. -/
def advanced_ai_detection (text : List Char) : DetectionResult :=
  if text = [] ∨ (pyStrip text).length < 20 then
    { ai_probability := 1/2, human_probability := none, note := note_short,
      confidence := 50, language := detect_language_advanced text,
      analysis := none }
  else
    { ai_probability := pyRound (aiProbOf (avgSentenceLen text)) 3,
      human_probability := some (pyRound (1 - aiProbOf (avgSentenceLen text)) 3),
      note := noteOf (aiProbOf (avgSentenceLen text)),
      confidence := 80,
      language := detect_language_advanced text,
      analysis := some ⟨(pyWords text).length, pyRound (avgSentenceLen text) 1⟩ }

/-- JSON body of POST /api/detect_ai; `none` models an absent "text" key. -/
structure DetectPayload where
  text : Option (List Char)
deriving DecidableEq

/-- A raised `HTTPException(status_code, detail)`. -/
inductive HttpExc where
  | http (status : Nat) (detail : String)
deriving DecidableEq

/-- The success body of POST /api/detect_ai: the detection result plus the
`method` field added at src/main.py line 133. -/
structure DetectResponse where
  result : DetectionResult
  method : String
deriving DecidableEq

/-- Validation detail of src/main.py line 130 (source: "النص مطلوب",
"text is required"). -/
def detail_required : String := "النص مطلوب"

/-- The body of the `try` block of `detect_ai` (src/main.py lines 128-134):
read "text" with default "", raise a 400 when it is empty, otherwise run the
detector and add the method field. -/
def detect_ai_body (p : DetectPayload) : Except HttpExc DetectResponse :=
  if p.text.getD [] = [] then .error (.http 400 detail_required)
  else .ok ⟨advanced_ai_detection (p.text.getD []), "advanced_algorithm"⟩

/-- Models Python `str(e)` for a Starlette/FastAPI `HTTPException`, whose
string form is the status code, a colon and a space, then the detail. -/
def excStr : HttpExc → String
  | .http s d => toString s ++ ": " ++ d

/-- `detect_ai` from src/main.py lines 124-138: the whole `try` body runs
under `except Exception as e: raise HTTPException(500, str(e))`, and
`HTTPException` is a subclass of `Exception`, so the 400 raised inside the
`try` is caught and re-raised as a 500. -/
def detect_ai (p : DetectPayload) : Except HttpExc DetectResponse :=
  match detect_ai_body p with
  | .ok r => .ok r
  | .error e => .error (.http 500 (excStr e))

/-- HTTP status visible to the caller: 200 for a success body, otherwise the
status of the exception. -/
def respStatus : Except HttpExc DetectResponse → Nat
  | .ok _ => 200
  | .error (.http s _) => s

/-- Detail string visible to the caller on an error, `none` on success. -/
def respDetail : Except HttpExc DetectResponse → Option String
  | .ok _ => none
  | .error (.http _ d) => some d

/-- One entry of the `scores` list of POST /api/check_plagiarism. -/
structure SimEntry where
  ref_index : Nat
  score : ℚ
  percentage : ℚ
  status : String
deriving DecidableEq, Repr

/-- The `summary` object of POST /api/check_plagiarism. -/
structure SimSummary where
  total_references : Nat
  highest_similarity : ℚ
  average_similarity : ℚ
deriving DecidableEq, Repr

/-- The response body of POST /api/check_plagiarism. -/
structure PlagResponse where
  scores : List SimEntry
  summary : SimSummary
deriving DecidableEq, Repr

/-- JSON body of POST /api/check_plagiarism; `none` models absent keys. -/
structure PlagPayload where
  doc : Option (List Char)
  references : Option (List (List Char))
deriving DecidableEq

/-- The raw (unrounded, unclamped) score of src/main.py line 150:
`score = 0.1 + (i * 0.1)`. -/
def simScore (i : Nat) : ℚ := 1/10 + (i : ℚ) * (1/10)

/-- One iteration of the loop of src/main.py lines 149-157: the status is
computed from the unrounded score, the stored score and percentage are
rounded to 2 decimals. -/
def simEntry (i : Nat) : SimEntry :=
  { ref_index := i,
    score := pyRound (simScore i) 2,
    percentage := pyRound (simScore i * 100) 2,
    status := if 7/10 < simScore i then "high"
      else if 4/10 < simScore i then "medium" else "low" }

/-- `check_plagiarism` from src/main.py lines 140-166: `doc` and
`references` are read with defaults "" and [], one entry is produced per
reference index, and the summary constants are fixed. -/
def check_plagiarism (p : PlagPayload) : PlagResponse :=
  { scores := (List.range (p.references.getD []).length).map simEntry,
    summary := { total_references := (p.references.getD []).length,
                 highest_similarity := 3/10,
                 average_similarity := 1/5 } }

/-- A text of thirty one-letter words in a single sentence, the scenario of
the specification (§8): average sentence length 30 > 25. -/
def thirtyWordText : List Char := (List.replicate 29 ['w', ' ']).flatten ++ ['w', '.']

/-- Rounding an integer value changes nothing. -/
theorem roundHalfEven_intCast (n : ℤ) : roundHalfEven (n : ℚ) = n := by
  unfold roundHalfEven
  rw [Int.floor_intCast, sub_self, if_pos (by norm_num : (0 : ℚ) < 1/2)]

/-- When `q * 10 ^ nd` is an integer, Python rounding returns `q` itself. -/
theorem pyRound_eq_self (q : ℚ) (nd : Nat) (n : ℤ) (h : q * 10 ^ nd = (n : ℚ)) :
    pyRound q nd = q := by
  unfold pyRound
  rw [h, roundHalfEven_intCast, ← h, mul_div_assoc,
    div_self (pow_ne_zero nd (by norm_num : (10 : ℚ) ≠ 0)), mul_one]

/-- The threshold classifier attains exactly the three values 0.7, 0.3, 0.5. -/
theorem aiProbOf_mem (avg : ℚ) :
    aiProbOf avg = 7/10 ∨ aiProbOf avg = 3/10 ∨ aiProbOf avg = 1/2 := by
  unfold aiProbOf
  split_ifs <;> simp

/-- On the three attainable probabilities, rounding to 3 decimals is the
identity. -/
theorem pyRound3_attained (v : ℚ) (h : v = 7/10 ∨ v = 3/10 ∨ v = 1/2) :
    pyRound v 3 = v := by
  rcases h with h | h | h <;> subst h
  · exact pyRound_eq_self _ _ 700 (by norm_num)
  · exact pyRound_eq_self _ _ 300 (by norm_num)
  · exact pyRound_eq_self _ _ 500 (by norm_num)

/-- Evaluation of the long-text branch of the detector. -/
theorem advanced_ai_detection_long (text : List Char)
    (h : 20 ≤ (pyStrip text).length) :
    advanced_ai_detection text =
      { ai_probability := pyRound (aiProbOf (avgSentenceLen text)) 3,
        human_probability := some (pyRound (1 - aiProbOf (avgSentenceLen text)) 3),
        note := noteOf (aiProbOf (avgSentenceLen text)),
        confidence := 80,
        language := detect_language_advanced text,
        analysis := some ⟨(pyWords text).length, pyRound (avgSentenceLen text) 1⟩ } := by
  have hne : ¬(text = [] ∨ (pyStrip text).length < 20) := by
    rintro (rfl | hlt)
    · exact absurd h (by decide)
    · omega
  unfold advanced_ai_detection
  rw [if_neg hne]

/-- The stored similarity score is the raw score: two-decimal rounding is
exact on 0.1 + i*0.1. -/
theorem pyRound_simScore (i : Nat) : pyRound (simScore i) 2 = simScore i := by
  apply pyRound_eq_self _ _ (10 + 10 * (i : ℤ))
  unfold simScore
  push_cast
  ring

/-- The stored percentage is the raw score times 100: rounding is exact. -/
theorem pyRound_simScore100 (i : Nat) :
    pyRound (simScore i * 100) 2 = simScore i * 100 := by
  apply pyRound_eq_self _ _ (1000 + 1000 * (i : ℤ))
  unfold simScore
  push_cast
  ring

/-- Closed form of one similarity entry. -/
theorem simEntry_eval (i : Nat) :
    simEntry i = ⟨i, simScore i, simScore i * 100,
      if 7/10 < simScore i then "high"
      else if 4/10 < simScore i then "medium" else "low"⟩ := by
  unfold simEntry
  rw [pyRound_simScore, pyRound_simScore100]

/-- The scores list has one entry per reference. -/
theorem check_plagiarism_scores_length (p : PlagPayload) :
    (check_plagiarism p).scores.length = (p.references.getD []).length := by
  simp [check_plagiarism]

/-- The entry at position i of the scores list is `simEntry i`. -/
theorem check_plagiarism_scores_get (p : PlagPayload) (i : Nat)
    (hi : i < (check_plagiarism p).scores.length) :
    (check_plagiarism p).scores.get ⟨i, hi⟩ = simEntry i := by
  simp [check_plagiarism, List.get_eq_getElem]

/-- The thirty-word scenario text has average sentence length exactly 30. -/
theorem avgSentenceLen_thirty : avgSentenceLen thirtyWordText = 30 := by
  have hsent : sentencesOf thirtyWordText =
      [(List.replicate 29 ['w', ' ']).flatten ++ ['w']] := by decide
  have hwords :
      (pyWords ((List.replicate 29 ['w', ' ']).flatten ++ ['w'])).length = 30 := by
    decide
  unfold avgSentenceLen
  rw [hsent]
  rw [if_neg (by simp :
    ¬([(List.replicate 29 ['w', ' ']).flatten ++ ['w']] : List (List Char)) = [])]
  simp only [List.map_cons, List.map_nil, List.sum_cons, List.sum_nil,
    List.length_cons, List.length_nil, hwords]
  norm_num

/-- C1 (counterexample): a text of 30 one-letter words in a single sentence
has trimmed length 60 ≥ 20 and average sentence length 30 > 25, so
`ai_probability` is 0.7 — but the returned note is "النتيجة غير حاسمة"
(inconclusive result), not the high-likelihood note the claim predicts,
because the note comparison `ai_probability > 0.7` is strict. -/
theorem C1_counterexample :
    20 ≤ (pyStrip thirtyWordText).length ∧
    (advanced_ai_detection thirtyWordText).ai_probability = 7/10 ∧
    (advanced_ai_detection thirtyWordText).note = note_inconclusive ∧
    note_inconclusive ≠ note_high := by
  have h20 : 20 ≤ (pyStrip thirtyWordText).length := by decide
  have hai : aiProbOf (avgSentenceLen thirtyWordText) = 7/10 := by
    rw [avgSentenceLen_thirty]
    unfold aiProbOf
    norm_num
  rw [advanced_ai_detection_long _ h20]
  refine ⟨h20, ?_, ?_, by decide⟩
  · show pyRound (aiProbOf (avgSentenceLen thirtyWordText)) 3 = 7/10
    rw [hai]
    exact pyRound_eq_self _ _ 700 (by norm_num)
  · show noteOf (aiProbOf (avgSentenceLen thirtyWordText)) = note_inconclusive
    rw [hai]
    unfold noteOf
    norm_num

/-- C1 (amended): for every text whose trimmed length is at least 20, the
note is always "النتيجة غير حاسمة" (inconclusive result): the note
thresholds are strict comparisons against 0.7 and 0.3, and `ai_probability`
only attains 0.7, 0.3 and 0.5, so neither strict comparison ever fires. -/
theorem C1_note_always_inconclusive (text : List Char)
    (h : 20 ≤ (pyStrip text).length) :
    (advanced_ai_detection text).note = note_inconclusive := by
  rw [advanced_ai_detection_long _ h]
  show noteOf (aiProbOf (avgSentenceLen text)) = note_inconclusive
  rcases aiProbOf_mem (avgSentenceLen text) with hv | hv | hv <;>
    rw [hv] <;> unfold noteOf <;> norm_num

/-- C1 (witness): the amended theorem applied to the thirty-word text. -/
theorem C1_witness :
    20 ≤ (pyStrip thirtyWordText).length ∧
    (advanced_ai_detection thirtyWordText).note = note_inconclusive :=
  ⟨by decide, C1_note_always_inconclusive thirtyWordText (by decide)⟩

/-- C2 (evaluation at the failing input): for an empty or missing "text"
field, the `try` body does raise HTTPException(400, "النص مطلوب") — but the
handler's blanket `except Exception` catches it and re-raises a 500, so the
status that reaches the caller is 500, not 400. -/
theorem C2_empty_text_gives_500 :
    respStatus (detect_ai_body ⟨some []⟩) = 400 ∧
    respDetail (detect_ai_body ⟨some []⟩) = some detail_required ∧
    respStatus (detect_ai ⟨some []⟩) = 500 ∧
    respStatus (detect_ai ⟨none⟩) = 500 ∧
    respStatus (detect_ai ⟨some []⟩) ≠ 400 := by
  refine ⟨rfl, rfl, rfl, rfl, by decide⟩

/-- C4: for every text whose trimmed length is below 20, the detector
short-circuits to ai_probability 0.5, confidence 50, the too-short note, the
classifier's language, and neither a human_probability nor an analysis
block. -/
theorem C4_short_circuit (text : List Char) (h : (pyStrip text).length < 20) :
    advanced_ai_detection text =
      { ai_probability := 1/2, human_probability := none, note := note_short,
        confidence := 50, language := detect_language_advanced text,
        analysis := none } := by
  unfold advanced_ai_detection
  rw [if_pos (Or.inr h)]

/-- C4 (witness): the short text "Hi". -/
theorem C4_witness :
    (pyStrip ("Hi".data)).length < 20 ∧
    advanced_ai_detection ("Hi".data) =
      { ai_probability := 1/2, human_probability := none, note := note_short,
        confidence := 50, language := detect_language_advanced ("Hi".data),
        analysis := none } :=
  ⟨by decide, C4_short_circuit ("Hi".data) (by decide)⟩

/-- C7: whenever the trimmed length is at least 20 both probabilities are
present, human_probability = round(1 - ai_probability, 3), and the two sum
to exactly 1. -/
theorem C7_probability_sum (text : List Char) (h : 20 ≤ (pyStrip text).length) :
    ∃ hp : ℚ, (advanced_ai_detection text).human_probability = some hp ∧
      hp = pyRound (1 - (advanced_ai_detection text).ai_probability) 3 ∧
      (advanced_ai_detection text).ai_probability + hp = 1 := by
  rw [advanced_ai_detection_long _ h]
  have hself := pyRound3_attained _ (aiProbOf_mem (avgSentenceLen text))
  rcases aiProbOf_mem (avgSentenceLen text) with hv | hv | hv <;> rw [hv] at hself ⊢
  · refine ⟨pyRound (1 - 7/10) 3, rfl, by rw [hself], ?_⟩
    rw [hself, show (1 : ℚ) - 7/10 = 3/10 by norm_num,
      pyRound_eq_self _ _ 300 (by norm_num)]
    norm_num
  · refine ⟨pyRound (1 - 3/10) 3, rfl, by rw [hself], ?_⟩
    rw [hself, show (1 : ℚ) - 3/10 = 7/10 by norm_num,
      pyRound_eq_self _ _ 700 (by norm_num)]
    norm_num
  · refine ⟨pyRound (1 - 1/2) 3, rfl, by rw [hself], ?_⟩
    rw [hself, show (1 : ℚ) - 1/2 = 1/2 by norm_num,
      pyRound_eq_self _ _ 500 (by norm_num)]
    norm_num

/-- C7 (witness): the round-trip theorem applied to the thirty-word text. -/
theorem C7_witness :
    20 ≤ (pyStrip thirtyWordText).length ∧
    ∃ hp : ℚ, (advanced_ai_detection thirtyWordText).human_probability = some hp ∧
      hp = pyRound (1 - (advanced_ai_detection thirtyWordText).ai_probability) 3 ∧
      (advanced_ai_detection thirtyWordText).ai_probability + hp = 1 :=
  ⟨by decide, C7_probability_sum thirtyWordText (by decide)⟩

/-- C3 (counterexample): with 11 references the entry at index 10 has score
0.1 + 10*0.1 = 1.1 > 1 and percentage 110 > 100 — the loop never clamps. -/
theorem C3_counterexample :
    ((check_plagiarism ⟨none, some (List.replicate 11 ['a'])⟩).scores.get
        ⟨10, by decide⟩).score = 11/10 ∧
    ((check_plagiarism ⟨none, some (List.replicate 11 ['a'])⟩).scores.get
        ⟨10, by decide⟩).percentage = 110 ∧
    ¬((check_plagiarism ⟨none, some (List.replicate 11 ['a'])⟩).scores.get
        ⟨10, by decide⟩).score ≤ 1 ∧
    ¬((check_plagiarism ⟨none, some (List.replicate 11 ['a'])⟩).scores.get
        ⟨10, by decide⟩).percentage ≤ 100 := by
  rw [check_plagiarism_scores_get, simEntry_eval]
  refine ⟨?_, ?_, ?_, ?_⟩
  · show simScore 10 = 11/10
    unfold simScore
    norm_num
  · show simScore 10 * 100 = 110
    unfold simScore
    norm_num
  · show ¬simScore 10 ≤ 1
    unfold simScore
    norm_num
  · show ¬simScore 10 * 100 ≤ 100
    unfold simScore
    norm_num

/-- C3 (amended): every entry satisfies percentage = score * 100, and the
claimed bounds score ∈ [0,1], percentage ∈ [0,100] hold exactly when the
reference list has at most 10 entries (the score 0.1 + 0.1*i is unclamped
and exceeds 1 from index 10 on). -/
theorem C3_score_percentage_bounds (p : PlagPayload) (i : Nat)
    (hi : i < (check_plagiarism p).scores.length) :
    ((check_plagiarism p).scores.get ⟨i, hi⟩).percentage =
      ((check_plagiarism p).scores.get ⟨i, hi⟩).score * 100 ∧
    ((p.references.getD []).length ≤ 10 →
      0 ≤ ((check_plagiarism p).scores.get ⟨i, hi⟩).score ∧
      ((check_plagiarism p).scores.get ⟨i, hi⟩).score ≤ 1 ∧
      0 ≤ ((check_plagiarism p).scores.get ⟨i, hi⟩).percentage ∧
      ((check_plagiarism p).scores.get ⟨i, hi⟩).percentage ≤ 100) := by
  have hlen := check_plagiarism_scores_length p
  rw [check_plagiarism_scores_get, simEntry_eval]
  refine ⟨rfl, fun hle => ?_⟩
  have hi9 : i ≤ 9 := by omega
  have hiq : (i : ℚ) ≤ 9 := by exact_mod_cast hi9
  have h0q : (0 : ℚ) ≤ (i : ℚ) := by positivity
  refine ⟨?_, ?_, ?_, ?_⟩
  · show (0 : ℚ) ≤ simScore i
    unfold simScore
    linarith
  · show simScore i ≤ 1
    unfold simScore
    linarith
  · show (0 : ℚ) ≤ simScore i * 100
    unfold simScore
    linarith
  · show simScore i * 100 ≤ 100
    unfold simScore
    nlinarith

/-- C3 (witness): the amended theorem at a one-reference payload, index 0. -/
theorem C3_witness :
    0 < (check_plagiarism ⟨none, some [['a']]⟩).scores.length ∧
    (((check_plagiarism ⟨none, some [['a']]⟩).scores.get ⟨0, by decide⟩).percentage =
      ((check_plagiarism ⟨none, some [['a']]⟩).scores.get ⟨0, by decide⟩).score * 100 ∧
    (((⟨none, some [['a']]⟩ : PlagPayload).references.getD []).length ≤ 10 →
      0 ≤ ((check_plagiarism ⟨none, some [['a']]⟩).scores.get ⟨0, by decide⟩).score ∧
      ((check_plagiarism ⟨none, some [['a']]⟩).scores.get ⟨0, by decide⟩).score ≤ 1 ∧
      0 ≤ ((check_plagiarism ⟨none, some [['a']]⟩).scores.get ⟨0, by decide⟩).percentage ∧
      ((check_plagiarism ⟨none, some [['a']]⟩).scores.get ⟨0, by decide⟩).percentage ≤ 100)) :=
  ⟨by decide, C3_score_percentage_bounds ⟨none, some [['a']]⟩ 0 (by decide)⟩

/-- C5: a non-empty reference list of length n yields exactly n entries with
ref_index 0..n-1 in order and score 0.1 + i*0.1 at position i; and the
three-reference scenario yields scores 0.1/0.2/0.3, percentages 10/20/30,
statuses low/low/low. -/
theorem C5_entries (doc : Option (List Char)) (refs : List (List Char))
    (_hne : refs ≠ []) :
    ((check_plagiarism ⟨doc, some refs⟩).scores.length = refs.length ∧
      ∀ i : Fin (check_plagiarism ⟨doc, some refs⟩).scores.length,
        ((check_plagiarism ⟨doc, some refs⟩).scores.get i).ref_index = i.val ∧
        ((check_plagiarism ⟨doc, some refs⟩).scores.get i).score =
          1/10 + (i.val : ℚ) * (1/10)) ∧
    (check_plagiarism ⟨some ("x".data), some ["a".data, "b".data, "c".data]⟩).scores =
      [⟨0, 1/10, 10, "low"⟩, ⟨1, 1/5, 20, "low"⟩, ⟨2, 3/10, 30, "low"⟩] := by
  refine ⟨⟨?_, ?_⟩, ?_⟩
  · simpa using check_plagiarism_scores_length ⟨doc, some refs⟩
  · intro i
    rw [show (check_plagiarism ⟨doc, some refs⟩).scores.get i =
        (check_plagiarism ⟨doc, some refs⟩).scores.get ⟨i.val, i.isLt⟩ from rfl,
      check_plagiarism_scores_get, simEntry_eval]
    exact ⟨rfl, rfl⟩
  · rw [show (check_plagiarism
        ⟨some ("x".data), some ["a".data, "b".data, "c".data]⟩).scores =
        [simEntry 0, simEntry 1, simEntry 2] from rfl,
      simEntry_eval, simEntry_eval, simEntry_eval]
    norm_num [simScore]

/-- C5 (witness): the theorem applied to the three-reference scenario. -/
theorem C5_witness :
    (["a".data, "b".data, "c".data] : List (List Char)) ≠ [] ∧
    (((check_plagiarism
          ⟨some ("x".data), some ["a".data, "b".data, "c".data]⟩).scores.length =
        (["a".data, "b".data, "c".data] : List (List Char)).length ∧
      ∀ i : Fin (check_plagiarism
          ⟨some ("x".data), some ["a".data, "b".data, "c".data]⟩).scores.length,
        ((check_plagiarism
            ⟨some ("x".data), some ["a".data, "b".data, "c".data]⟩).scores.get
          i).ref_index = i.val ∧
        ((check_plagiarism
            ⟨some ("x".data), some ["a".data, "b".data, "c".data]⟩).scores.get
          i).score = 1/10 + (i.val : ℚ) * (1/10)) ∧
    (check_plagiarism ⟨some ("x".data), some ["a".data, "b".data, "c".data]⟩).scores =
      [⟨0, 1/10, 10, "low"⟩, ⟨1, 1/5, 20, "low"⟩, ⟨2, 3/10, 30, "low"⟩]) :=
  ⟨by decide, C5_entries (some ("x".data)) ["a".data, "b".data, "c".data] (by decide)⟩

/-- C6: the summary always holds total_references = len(references) and the
fixed constants highest_similarity = 0.3 and average_similarity = 0.2,
whatever the computed scores are. -/
theorem C6_summary_constants (p : PlagPayload) :
    (check_plagiarism p).summary =
      ⟨(p.references.getD []).length, 3/10, 1/5⟩ := rfl

/-- C8 (counterexample): ten KELVIN SIGN characters (U+212A). Python
`char.lower()` maps U+212A to "k", so the code counts ten "English"
characters and answers English, while the claim's ASCII-only englishCount is
0, which would give Mixed. -/
theorem C8_counterexample :
    detect_language_advanced (List.replicate 10 (Char.ofNat 0x212A)) = lang_english ∧
    detect_language_claim (List.replicate 10 (Char.ofNat 0x212A)) = lang_mixed ∧
    lang_english ≠ lang_mixed :=
  ⟨by decide, by decide, by decide⟩

/-- C8 (amended): on every text containing neither U+0130 nor U+212A — in
particular all ASCII and all Arabic-script text — the classifier behaves
exactly as the claim states; in general its englishCount also counts those
two non-ASCII codepoints, whose Python lowercase forms compare inside a-z. -/
theorem C8_classifier_agreement (text : List Char)
    (h : ∀ c ∈ text, c.toNat ≠ 0x130 ∧ c.toNat ≠ 0x212A) :
    detect_language_advanced text = detect_language_claim text := by
  have hf : text.filter isEnglishLowerRange = text.filter isAsciiAlpha := by
    apply List.filter_congr
    intro c hc
    rcases h c hc with ⟨h1, h2⟩
    have e1 : (c.toNat == 0x130) = false := by simpa using h1
    have e2 : (c.toNat == 0x212A) = false := by simpa using h2
    unfold isEnglishLowerRange
    rw [e1, e2, Bool.or_false, Bool.or_false]
  unfold detect_language_advanced detect_language_claim
  by_cases h10 : (pyStrip text).length < 10
  · rw [if_pos (Or.inr h10), if_pos h10]
  · have hcond : ¬(text = [] ∨ (pyStrip text).length < 10) := by
      rintro (rfl | hx)
      · exact h10 (by decide)
      · exact h10 hx
    rw [if_neg hcond, if_neg h10, hf]

/-- C8 (witness): the agreement theorem on the ASCII text "hello world". -/
theorem C8_witness :
    (∀ c ∈ ("hello world".data), c.toNat ≠ 0x130 ∧ c.toNat ≠ 0x212A) ∧
    detect_language_advanced ("hello world".data) =
      detect_language_claim ("hello world".data) :=
  ⟨by decide, C8_classifier_agreement ("hello world".data) (by decide)⟩

/-- C9: the response of check_plagiarism depends only on the references
field; two payloads agreeing on it get identical scores and summary, however
their doc strings differ. -/
theorem C9_doc_ignored (p1 p2 : PlagPayload) (h : p1.references = p2.references) :
    check_plagiarism p1 = check_plagiarism p2 := by
  unfold check_plagiarism
  rw [h]

/-- C9 (witness): two payloads with different docs and the same references. -/
theorem C9_witness :
    (⟨some ("doc one".data), some ["a".data]⟩ : PlagPayload).references =
      (⟨some ("doc two".data), some ["a".data]⟩ : PlagPayload).references ∧
    check_plagiarism ⟨some ("doc one".data), some ["a".data]⟩ =
      check_plagiarism ⟨some ("doc two".data), some ["a".data]⟩ :=
  ⟨rfl, C9_doc_ignored _ _ rfl⟩

/-- C10: an absent or empty references list is not an error: the handler
returns scores = [] and a summary with total_references 0 while the two
constants still read 0.3 and 0.2. -/
theorem C10_default_references (p : PlagPayload)
    (h : p.references = none ∨ p.references = some []) :
    check_plagiarism p = ⟨[], ⟨0, 3/10, 1/5⟩⟩ := by
  unfold check_plagiarism
  rcases h with h | h <;> rw [h] <;> rfl

/-- C10 (witness): the payload with both keys absent. -/
theorem C10_witness :
    ((⟨none, none⟩ : PlagPayload).references = none ∨
      (⟨none, none⟩ : PlagPayload).references = some []) ∧
    check_plagiarism ⟨none, none⟩ = ⟨[], ⟨0, 3/10, 1/5⟩⟩ :=
  ⟨Or.inl rfl, C10_default_references ⟨none, none⟩ (Or.inl rfl)⟩
